import Mathlib

/-!
Shallow embedding of `src/catalyst_center_mcp.py` (the tool-style surface of
the Catalyst Center MCP server).

Python JSON values are modelled by the inductive `Json` below; a `Json.obj`
models a Python `dict` produced by `json.loads`/`response.json()`, so its
keys are unique and field order is insertion order (which `json.dumps`
preserves).  Numbers are modelled as integers; no claim touches numeric
values.  The dynamic (exception-raising) Python operations the handlers use
on untyped data — `x[k]`, `x.get(k, d)`, `k in x`, iteration — are modelled
as `Except PyErr` computations, mirroring what each raises on each runtime
type.  Pydantic field validation (pydantic v2 lax mode: a `str` field
accepts exactly strings, an `Optional[str]` field accepts `None` or a
string) is modelled by `validateStr` / `validateOptStr`.

The network is abstracted by `UpstreamOutcome`: what the single
`client.request` call in `make_api_request` came to — a 2xx response with a
decoded JSON body, a non-2xx status (raised by `raise_for_status` as
`httpx.HTTPStatusError`), a transport failure (`httpx.RequestError`), or any
other exception inside the `try` block (for example `response.json()` on a
body that is not JSON).  `make_api_request` also records its observable
side effects: how many upstream requests it issued and which sleeps it
performed, so that the rate-limit behaviour is statable.
-/

/-- A JSON value / decoded Python object.  `obj` models a `dict` (unique
keys, insertion order); `num` covers only integral numbers. -/
inductive Json where
  | null : Json
  | bool : Bool → Json
  | num : Int → Json
  | str : String → Json
  | arr : List Json → Json
  | obj : List (String × Json) → Json

/-- First-match association lookup on the fields of an object (on a Python dict
the keys are unique, so this is plain dict lookup). -/
def lookupField : List (String × Json) → String → Option Json
  | [], _ => none
  | (k, v) :: kvs, key => if k = key then some v else lookupField kvs key

/-- Lookup on a `Json` value when it is an object; `none` otherwise. -/
def Json.lookupKey : Json → String → Option Json
  | .obj kvs, key => lookupField kvs key
  | _, _ => none

/-- The keys of a top-level JSON object, in order. -/
def Json.topKeys : Json → List String
  | .obj kvs => kvs.map Prod.fst
  | _ => []

/-- Whether a JSON value is an array. -/
def Json.isArr : Json → Bool
  | .arr _ => true
  | _ => false

/-- Exceptions the Python handler code can raise at runtime. -/
inductive PyErr where
  | keyError : String → PyErr
  | typeError : String → PyErr
  | attributeError : String → PyErr
  | validationError : String → PyErr
deriving DecidableEq

/-- Python `x[key]` with a string key: a dict either yields the value or
raises `KeyError`; every other runtime type raises `TypeError` (lists and
strings take integer indices, the rest are not subscriptable). -/
def Json.pyIndex : Json → String → Except PyErr Json
  | .obj kvs, key =>
    match lookupField kvs key with
    | some v => .ok v
    | none => .error (.keyError key)
  | _, _ => .error (.typeError "indices must be integers or slices")

/-- Python `x.get(key, default)`: only dicts have `.get`; anything else
raises `AttributeError`. -/
def Json.pyGet : Json → String → Json → Except PyErr Json
  | .obj kvs, key, dflt => .ok ((lookupField kvs key).getD dflt)
  | _, _, _ => .error (.attributeError "get")

/-- Substring test on lists of characters, used for Python `sub in s`. -/
def charsContain (hay needle : List Char) : Bool :=
  (List.range (hay.length + 1)).any fun i => (hay.drop i).take needle.length = needle

/-- Python `key in x` for a string `key`: dict → key membership, list →
membership by equality (only a `str` element can equal a string), string →
substring test; `None`, numbers and booleans are not iterable. -/
def Json.pyContains : Json → String → Except PyErr Bool
  | .obj kvs, key => .ok (lookupField kvs key).isSome
  | .arr xs, key =>
    .ok (xs.any fun j => match j with | .str s => s = key | _ => false)
  | .str s, key => .ok (charsContain s.toList key.toList)
  | _, _ => .error (.typeError "argument is not iterable")

/-- Python iteration `for x in v`: list → elements, string → one-character
strings, dict → its keys; `None`, numbers and booleans raise `TypeError`. -/
def Json.pyIter : Json → Except PyErr (List Json)
  | .arr xs => .ok xs
  | .str s => .ok (s.toList.map fun c => .str (String.singleton c))
  | .obj kvs => .ok (kvs.map fun kv => .str kv.1)
  | _ => .error (.typeError "object is not iterable")

/-- Pydantic v2 validation of a required `str` field: exactly strings pass
(lax mode does not coerce numbers, booleans or `None` to `str`). -/
def validateStr (field : String) : Json → Except PyErr String
  | .str s => .ok s
  | _ => .error (.validationError field)

/-- Pydantic v2 validation of an `Optional[str] = None` field: `None` or a
string passes and is kept as the resulting JSON value. -/
def validateOptStr (field : String) : Json → Except PyErr Json
  | .null => .ok .null
  | .str s => .ok (.str s)
  | _ => .error (.validationError field)

/-- A Python list comprehension with a fallible body: left to right, the
first raised exception propagates. -/
def mapExcept (g : Json → Except PyErr Json) : List Json → Except PyErr (List Json)
  | [] => .ok []
  | x :: xs => do
    let y ← g x
    let ys ← mapExcept g xs
    return y :: ys

/-! ### `json.dumps(v, indent=2)`

Python pretty-printing with a two-space indent: container items are
separated by `",\n"`, keys by `": "`, empty containers print with no inner
newline, and strings are escaped with `ensure_ascii` (the default): `"`,
`\`, the named control escapes, `\u00xx` for other control characters and
`\uxxxx` (with surrogate pairs) for all non-ASCII. -/

def hexDigitChar (n : Nat) : Char :=
  if n < 10 then Char.ofNat (48 + n) else Char.ofNat (97 + (n - 10))

def hex4 (n : Nat) : String :=
  String.mk [hexDigitChar (n / 4096 % 16), hexDigitChar (n / 256 % 16),
    hexDigitChar (n / 16 % 16), hexDigitChar (n % 16)]

def escapeChar (c : Char) : String :=
  if c = '"' then "\\\""
  else if c = '\\' then "\\\\"
  else if c = '\n' then "\\n"
  else if c = '\t' then "\\t"
  else if c = '\r' then "\\r"
  else if c.toNat = 8 then "\\b"
  else if c.toNat = 12 then "\\f"
  else if c.toNat < 32 || 126 < c.toNat then
    if 65536 ≤ c.toNat then
      "\\u" ++ hex4 (55296 + (c.toNat - 65536) / 1024) ++
        "\\u" ++ hex4 (56320 + (c.toNat - 65536) % 1024)
    else "\\u" ++ hex4 c.toNat
  else String.singleton c

def quoteStr (s : String) : String :=
  "\"" ++ String.join (s.toList.map escapeChar) ++ "\""

def pad (n : Nat) : String :=
  String.mk (List.replicate n ' ')

mutual

def dumpsAt : Nat → Json → String
  | _, .null => "null"
  | _, .bool true => "true"
  | _, .bool false => "false"
  | _, .num n => toString n
  | _, .str s => quoteStr s
  | _, .arr [] => "[]"
  | ind, .arr (x :: xs) =>
    "[\n" ++ dumpsItems (ind + 2) (x :: xs) ++ "\n" ++ pad ind ++ "]"
  | _, .obj [] => "\x7b\x7d"
  | ind, .obj (kv :: kvs) =>
    "\x7b\n" ++ dumpsFields (ind + 2) (kv :: kvs) ++ "\n" ++ pad ind ++ "\x7d"

def dumpsItems : Nat → List Json → String
  | _, [] => ""
  | ind, [x] => pad ind ++ dumpsAt ind x
  | ind, x :: y :: xs => pad ind ++ dumpsAt ind x ++ ",\n" ++ dumpsItems ind (y :: xs)

def dumpsFields : Nat → List (String × Json) → String
  | _, [] => ""
  | ind, [(k, v)] => pad ind ++ quoteStr k ++ ": " ++ dumpsAt ind v
  | ind, (k, v) :: kv :: kvs =>
    pad ind ++ quoteStr k ++ ": " ++ dumpsAt ind v ++ ",\n" ++ dumpsFields ind (kv :: kvs)

end

/-- `json.dumps(v, indent=2)`. -/
def dumps (v : Json) : String := dumpsAt 0 v

/-! ### Configuration (module top level, lines 14-18) -/

/-- The default of `os.getenv("CATALYST_API_BASE_URL", ...)`. -/
def DEFAULT_BASE_URL : String := "https://sandboxdnac.cisco.com/dna/intent/api/v1"

structure Config where
  apiBaseUrl : String
  apiToken : String
deriving DecidableEq

/-- Module import: `API_BASE_URL = os.getenv(..., default)`,
`API_TOKEN = os.getenv("CATALYST_API_TOKEN")`, then
`if not API_TOKEN: raise ValueError(...)`.  `os.getenv` returns `None` for
an unset variable (only then the default applies) and Python `not` treats
both `None` and the empty string as falsy, so an unset or empty token
raises before any tool is defined or served. -/
def startup (env : String → Option String) : Except String Config :=
  let apiBaseUrl := (env "CATALYST_API_BASE_URL").getD DEFAULT_BASE_URL
  match env "CATALYST_API_TOKEN" with
  | none => .error "CATALYST_API_TOKEN environment variable is required"
  | some t =>
    if t = "" then .error "CATALYST_API_TOKEN environment variable is required"
    else .ok ⟨apiBaseUrl, t⟩

/-! ### The request forwarder `make_api_request` (lines 60-84) -/

/-- What the single `client.request` call inside `make_api_request` came
to.  `success` is a 2xx response whose body decoded as JSON; `httpError`
is any non-2xx status (raised by `raise_for_status`), carrying
`e.response.text`; `requestError` is a transport failure
(`httpx.RequestError`); `unexpected` is any other exception inside the
`try`, for example `response.json()` on a non-JSON body. -/
inductive UpstreamOutcome where
  | success : Json → UpstreamOutcome
  | httpError : Nat → String → UpstreamOutcome
  | requestError : String → UpstreamOutcome
  | unexpected : String → UpstreamOutcome

def outcomeIsFailure : UpstreamOutcome → Bool
  | .success _ => false
  | _ => true

/-- `{"error": msg}` as returned by the except-branches of the forwarder. -/
def errObj (msg : String) : Json :=
  Json.obj [("error", Json.str msg)]

/-- The forwarder result together with its observable side effects: the
number of upstream requests it issued and the sleeps it performed. -/
structure ForwardResult where
  attempts : Nat
  sleepSeconds : List Nat
  result : Json

/-- `make_api_request`: one `client.request` call; a 2xx body is returned
as decoded; 401 / 429 / other statuses and the exception classes map to
`{"error": ...}` dicts, with `await asyncio.sleep(1)` before the 429
return.  No branch re-issues the request. -/
def make_api_request (outcome : UpstreamOutcome) : ForwardResult :=
  match outcome with
  | .success body => ⟨1, [], body⟩
  | .httpError status text =>
    if status = 401 then
      ⟨1, [], errObj "Authentication failed. Check your API token."⟩
    else if status = 429 then
      ⟨1, [1], errObj "Rate limit exceeded. Please try again later."⟩
    else
      ⟨1, [], errObj ("API error: " ++ toString status ++ " - " ++ text)⟩
  | .requestError msg => ⟨1, [], errObj ("Network error: " ++ msg)⟩
  | .unexpected msg => ⟨1, [], errObj ("Unexpected error: " ++ msg)⟩

/-! ### The five tool handlers (lines 86-197)

Each handler is split into the pure request it would send, the
`Except PyErr Json` value it passes to `json.dumps` (the `_core` function,
taking the decoded forwarder result `data`), and the returned string.
The shared first two lines of every handler,
`if "error" in data: return json.dumps({"error": data["error"]}, indent=2)`,
are factored into `errorCheckVal`. -/

/-- The value of `"error" in data` together with `data["error"]` when the
test is true (`some v`), as the handlers evaluate them. -/
def errorCheckVal (data : Json) : Except PyErr (Option Json) := do
  let b ← data.pyContains "error"
  if b then
    let v ← data.pyIndex "error"
    return some v
  else
    return none

/-- One element of the `get_sites` comprehension:
`Site(id=site["id"], name=site["name"], description=site.get("description")).dict()`. -/
def siteRecord (site : Json) : Except PyErr Json := do
  let idv ← site.pyIndex "id"
  let namev ← site.pyIndex "name"
  let descv ← site.pyGet "description" Json.null
  let idS ← validateStr "id" idv
  let nameS ← validateStr "name" namev
  let descJ ← validateOptStr "description" descv
  return Json.obj [("id", Json.str idS), ("name", Json.str nameS), ("description", descJ)]

def get_sites_core (data : Json) : Except PyErr Json := do
  match ← errorCheckVal data with
  | some e => return Json.obj [("error", e)]
  | none =>
    let resp ← data.pyGet "response" (Json.arr [])
    let items ← resp.pyIter
    let sites ← mapExcept siteRecord items
    if sites.isEmpty then
      return Json.obj [("message", Json.str "No sites found.")]
    else
      return Json.arr sites

def get_sites (outcome : UpstreamOutcome) : Except PyErr String :=
  (get_sites_core (make_api_request outcome).result).map dumps

/-- One element of the `get_devices` comprehension:
`Device(id=dev["id"], hostname=dev["hostname"], family=dev["family"],
role=dev["role"], ip_address=dev.get("managementIpAddress")).dict()`. -/
def deviceRecord (dev : Json) : Except PyErr Json := do
  let idv ← dev.pyIndex "id"
  let hostv ← dev.pyIndex "hostname"
  let famv ← dev.pyIndex "family"
  let rolev ← dev.pyIndex "role"
  let ipv ← dev.pyGet "managementIpAddress" Json.null
  let idS ← validateStr "id" idv
  let hostS ← validateStr "hostname" hostv
  let famS ← validateStr "family" famv
  let roleS ← validateStr "role" rolev
  let ipJ ← validateOptStr "ip_address" ipv
  return Json.obj [("id", Json.str idS), ("hostname", Json.str hostS),
    ("family", Json.str famS), ("role", Json.str roleS), ("ip_address", ipJ)]

def get_devices_core (data : Json) : Except PyErr Json := do
  match ← errorCheckVal data with
  | some e => return Json.obj [("error", e)]
  | none =>
    let resp ← data.pyGet "response" (Json.arr [])
    let items ← resp.pyIter
    let devices ← mapExcept deviceRecord items
    if devices.isEmpty then
      return Json.obj [("message", Json.str "No devices found.")]
    else
      return Json.arr devices

def get_devices (site_id : Option String) (outcome : UpstreamOutcome) : Except PyErr String :=
  (get_devices_core (make_api_request outcome).result).map dumps

/-- One element of the `get_endpoints` comprehension:
`Endpoint(mac=ep.get("mac"), ip_address=ep.get("ipAddress"),
username=ep.get("username")).dict()`. -/
def endpointRecord (ep : Json) : Except PyErr Json := do
  let macv ← ep.pyGet "mac" Json.null
  let ipv ← ep.pyGet "ipAddress" Json.null
  let userv ← ep.pyGet "username" Json.null
  let macJ ← validateOptStr "mac" macv
  let ipJ ← validateOptStr "ip_address" ipv
  let userJ ← validateOptStr "username" userv
  return Json.obj [("mac", macJ), ("ip_address", ipJ), ("username", userJ)]

def get_endpoints_core (data : Json) : Except PyErr Json := do
  match ← errorCheckVal data with
  | some e => return Json.obj [("error", e)]
  | none =>
    let resp ← data.pyGet "response" (Json.arr [])
    let items ← resp.pyIter
    let endpoints ← mapExcept endpointRecord items
    if endpoints.isEmpty then
      return Json.obj [("message", Json.str "No endpoints found for this device.")]
    else
      return Json.arr endpoints

def get_endpoints (device_id : String) (outcome : UpstreamOutcome) : Except PyErr String :=
  (get_endpoints_core (make_api_request outcome).result).map dumps

def get_device_details_core (data : Json) : Except PyErr Json := do
  match ← errorCheckVal data with
  | some e => return Json.obj [("error", e)]
  | none =>
    let device ← data.pyGet "response" (Json.obj [])
    let hostv ← device.pyGet "hostname" (Json.str "N/A")
    let famv ← device.pyGet "family" (Json.str "N/A")
    let swv ← device.pyGet "softwareVersion" Json.null
    let serv ← device.pyGet "serialNumber" Json.null
    let stav ← device.pyGet "reachabilityStatus" Json.null
    let hostS ← validateStr "hostname" hostv
    let famS ← validateStr "family" famv
    let swJ ← validateOptStr "software_version" swv
    let serJ ← validateOptStr "serial_number" serv
    let staJ ← validateOptStr "status" stav
    return Json.obj [("hostname", Json.str hostS), ("family", Json.str famS),
      ("software_version", swJ), ("serial_number", serJ), ("status", staJ)]

def get_device_details (device_id : String) (outcome : UpstreamOutcome) : Except PyErr String :=
  (get_device_details_core (make_api_request outcome).result).map dumps

/-- `run_automation_task` builds
`result = TaskResult(task_id=data.get("taskId"), status=data.get("progress")).dict()`
and dumps `{"status": "success", "task_id": result["task_id"],
"progress": result["status"]}`. -/
def run_automation_task_core (data : Json) : Except PyErr Json := do
  match ← errorCheckVal data with
  | some e => return Json.obj [("error", e)]
  | none =>
    let tidv ← data.pyGet "taskId" Json.null
    let progv ← data.pyGet "progress" Json.null
    let tidJ ← validateOptStr "task_id" tidv
    let progJ ← validateOptStr "status" progv
    return Json.obj [("status", Json.str "success"), ("task_id", tidJ), ("progress", progJ)]

def run_automation_task (task_type : String) (params : Json) (outcome : UpstreamOutcome) :
    Except PyErr String :=
  (run_automation_task_core (make_api_request outcome).result).map dumps

/-! ### The requests each handler sends -/

structure ApiRequest where
  method : String
  path : String
  queryParams : Option (List (String × String))
  body : Option Json

def get_sites_request : ApiRequest :=
  ⟨"GET", "site", none, none⟩

/-- `params = {"siteId": site_id} if site_id else None`: Python truthiness,
so `None` and the empty string both give no params. -/
def get_devices_request (site_id : Option String) : ApiRequest :=
  ⟨"GET", "network-device",
    (match site_id with
     | some s => if s = "" then none else some [("siteId", s)]
     | none => none), none⟩

def get_endpoints_request (device_id : String) : ApiRequest :=
  ⟨"GET", "device/" ++ device_id ++ "/endpoint", none, none⟩

def get_device_details_request (device_id : String) : ApiRequest :=
  ⟨"GET", "network-device/" ++ device_id, none, none⟩

def run_automation_task_request (task_type : String) (params : Json) : ApiRequest :=
  ⟨"POST", "task", none,
    some (Json.obj [("taskType", Json.str task_type), ("params", params)])⟩

/-! ### The route surface (not part of this source tree) -/

/-- Modelled from the spec: the route-style surface (Surface B) with its
`create_site` handler is not among the source files here; per the spec,
`create_site` takes a SiteCreateRequest (`siteNameHierarchy` required,
`siteType` defaulting to `"FABRIC_SITE"`) and produces an upstream POST
body that wraps the input in a single-element array. -/
def create_site_request_body (siteNameHierarchy siteType : String) : Json :=
  Json.arr [Json.obj [("siteNameHierarchy", Json.str siteNameHierarchy),
    ("siteType", Json.str siteType)]]

/-- Modelled from the spec: the declared default of `siteType` in
SiteCreateRequest. -/
def DEFAULT_SITE_TYPE : String := "FABRIC_SITE"

/-! ### Well-formed upstream records and their projections

A record is well formed for a schema when every required field is present
as a string and every optional field is absent, `null` or a string — i.e.
exactly when pydantic validation succeeds on what the handler extracts. -/

/-- A required `str` field: present as a string. -/
def isStrField : Option Json → Bool
  | some (.str _) => true
  | _ => false

/-- An `Optional[str]` field: absent, `null` or a string. -/
def isOptStrField : Option Json → Bool
  | none => true
  | some .null => true
  | some (.str _) => true
  | _ => false

def siteWF (r : Json) : Bool :=
  match r with
  | .obj kvs =>
    isStrField (lookupField kvs "id") && isStrField (lookupField kvs "name") &&
      isOptStrField (lookupField kvs "description")
  | _ => false

def deviceWF (r : Json) : Bool :=
  match r with
  | .obj kvs =>
    isStrField (lookupField kvs "id") && isStrField (lookupField kvs "hostname") &&
      isStrField (lookupField kvs "family") && isStrField (lookupField kvs "role") &&
      isOptStrField (lookupField kvs "managementIpAddress")
  | _ => false

def endpointWF (r : Json) : Bool :=
  match r with
  | .obj kvs =>
    isOptStrField (lookupField kvs "mac") && isOptStrField (lookupField kvs "ipAddress") &&
      isOptStrField (lookupField kvs "username")
  | _ => false

/-- An upstream field as it lands in the output: the value if present,
`null` otherwise. -/
def fieldOr (r : Json) (k : String) : Json :=
  (r.lookupKey k).getD Json.null

/-- The Site projection of a well-formed record. -/
def siteProj (r : Json) : Json :=
  Json.obj [("id", fieldOr r "id"), ("name", fieldOr r "name"),
    ("description", fieldOr r "description")]

/-- The Device projection of a well-formed record. -/
def deviceProj (r : Json) : Json :=
  Json.obj [("id", fieldOr r "id"), ("hostname", fieldOr r "hostname"),
    ("family", fieldOr r "family"), ("role", fieldOr r "role"),
    ("ip_address", fieldOr r "managementIpAddress")]

/-- The Endpoint projection of a well-formed record. -/
def endpointProj (r : Json) : Json :=
  Json.obj [("mac", fieldOr r "mac"), ("ip_address", fieldOr r "ipAddress"),
    ("username", fieldOr r "username")]

/-! ### Helper lemmas -/

theorem ok_bind {α β : Type} (a : α) (f : α → Except PyErr β) :
    Except.ok a >>= f = f a := rfl

theorem error_bind {α β : Type} (e : PyErr) (f : α → Except PyErr β) :
    (Except.error e : Except PyErr α) >>= f = .error e := rfl

theorem map_ok {α β : Type} (g : α → β) (a : α) :
    g <$> (Except.ok a : Except PyErr α) = .ok (g a) := rfl

theorem map_error {α β : Type} (g : α → β) (e : PyErr) :
    g <$> (Except.error e : Except PyErr α) = .error e := rfl

theorem pure_eq_ok {α : Type} (a : α) : (pure a : Except PyErr α) = .ok a := rfl

theorem excMap_ok {α β : Type} (g : α → β) (a : α) :
    Except.map g (Except.ok a : Except PyErr α) = .ok (g a) := rfl

theorem excMap_error {α β : Type} (g : α → β) (e : PyErr) :
    Except.map g (Except.error e : Except PyErr α) = .error e := rfl

theorem isStrField_iff (o : Option Json) :
    isStrField o = true ↔ ∃ s, o = some (.str s) := by
  cases o with
  | none => simp [isStrField]
  | some v => cases v <;> simp [isStrField]

theorem isOptStrField_iff (o : Option Json) :
    isOptStrField o = true ↔ o = none ∨ o = some .null ∨ ∃ s, o = some (.str s) := by
  cases o with
  | none => simp [isOptStrField]
  | some v => cases v <;> simp [isOptStrField]

/-- Both branches of `make_api_request` that do not return the decoded 2xx
body produce a `{"error": msg}` dict. -/
theorem make_api_request_failure (o : UpstreamOutcome) (h : outcomeIsFailure o = true) :
    ∃ m, (make_api_request o).result = errObj m := by
  cases o with
  | success body => simp [outcomeIsFailure] at h
  | httpError status text =>
    by_cases h1 : status = 401
    · exact ⟨"Authentication failed. Check your API token.", by simp [make_api_request, h1]⟩
    · by_cases h2 : status = 429
      · exact ⟨"Rate limit exceeded. Please try again later.",
          by simp [make_api_request, h1, h2]⟩
      · exact ⟨"API error: " ++ toString status ++ " - " ++ text,
          by simp [make_api_request, h1, h2]⟩
  | requestError msg => exact ⟨_, rfl⟩
  | unexpected msg => exact ⟨_, rfl⟩

theorem errorCheckVal_errObj (m : String) :
    errorCheckVal (errObj m) = .ok (some (Json.str m)) := rfl

/-- On a decoded object without a top-level `"error"` key the shared check
passes through. -/
theorem errorCheckVal_none (kvs : List (String × Json))
    (h : lookupField kvs "error" = none) :
    errorCheckVal (Json.obj kvs) = .ok none := by
  simp [errorCheckVal, Json.pyContains, h, ok_bind, pure_eq_ok]

/-- A fallible comprehension whose body succeeds on every element is the
plain map. -/
theorem mapExcept_ok (g : Json → Except PyErr Json) (f : Json → Json) :
    ∀ l : List Json, (∀ r ∈ l, g r = .ok (f r)) → mapExcept g l = .ok (l.map f) := by
  intro l
  induction l with
  | nil => intro _; rfl
  | cons x xs ih =>
    intro h
    have hx := h x (by simp)
    have hxs := ih fun r hr => h r (by simp [hr])
    simp [mapExcept, hx, hxs, ok_bind]

theorem siteRecord_of_wf (r : Json) (h : siteWF r = true) :
    siteRecord r = .ok (siteProj r) := by
  cases r
  case obj kvs =>
    simp only [siteWF, Bool.and_eq_true] at h
    obtain ⟨⟨h1, h2⟩, h3⟩ := h
    obtain ⟨s1, e1⟩ := (isStrField_iff _).mp h1
    obtain ⟨s2, e2⟩ := (isStrField_iff _).mp h2
    rcases (isOptStrField_iff _).mp h3 with e3 | e3 | ⟨s3, e3⟩ <;>
      simp [siteRecord, siteProj, Json.pyIndex, Json.pyGet, Json.lookupKey, fieldOr,
        e1, e2, e3, validateStr, validateOptStr, ok_bind]
  all_goals simp [siteWF] at h

theorem deviceRecord_of_wf (r : Json) (h : deviceWF r = true) :
    deviceRecord r = .ok (deviceProj r) := by
  cases r
  case obj kvs =>
    simp only [deviceWF, Bool.and_eq_true] at h
    obtain ⟨⟨⟨⟨h1, h2⟩, h3⟩, h4⟩, h5⟩ := h
    obtain ⟨s1, e1⟩ := (isStrField_iff _).mp h1
    obtain ⟨s2, e2⟩ := (isStrField_iff _).mp h2
    obtain ⟨s3, e3⟩ := (isStrField_iff _).mp h3
    obtain ⟨s4, e4⟩ := (isStrField_iff _).mp h4
    rcases (isOptStrField_iff _).mp h5 with e5 | e5 | ⟨s5, e5⟩ <;>
      simp [deviceRecord, deviceProj, Json.pyIndex, Json.pyGet, Json.lookupKey, fieldOr,
        e1, e2, e3, e4, e5, validateStr, validateOptStr, ok_bind]
  all_goals simp [deviceWF] at h

theorem endpointRecord_of_wf (r : Json) (h : endpointWF r = true) :
    endpointRecord r = .ok (endpointProj r) := by
  cases r
  case obj kvs =>
    simp only [endpointWF, Bool.and_eq_true] at h
    obtain ⟨⟨h1, h2⟩, h3⟩ := h
    rcases (isOptStrField_iff _).mp h1 with e1 | e1 | ⟨s1, e1⟩ <;>
      rcases (isOptStrField_iff _).mp h2 with e2 | e2 | ⟨s2, e2⟩ <;>
        rcases (isOptStrField_iff _).mp h3 with e3 | e3 | ⟨s3, e3⟩ <;>
          simp [endpointRecord, endpointProj, Json.pyGet, Json.lookupKey, fieldOr,
            e1, e2, e3, validateOptStr, ok_bind]
  all_goals simp [endpointWF] at h

/-- When the shared error check fires with value `v`, `get_sites` dumps
exactly `{"error": v}`. -/
theorem get_sites_core_error (data v : Json) (h : errorCheckVal data = .ok (some v)) :
    get_sites_core data = .ok (Json.obj [("error", v)]) := by
  simp [get_sites_core, h, ok_bind, pure_eq_ok]

theorem get_devices_core_error (data v : Json) (h : errorCheckVal data = .ok (some v)) :
    get_devices_core data = .ok (Json.obj [("error", v)]) := by
  simp [get_devices_core, h, ok_bind, pure_eq_ok]

theorem get_endpoints_core_error (data v : Json) (h : errorCheckVal data = .ok (some v)) :
    get_endpoints_core data = .ok (Json.obj [("error", v)]) := by
  simp [get_endpoints_core, h, ok_bind, pure_eq_ok]

theorem get_device_details_core_error (data v : Json) (h : errorCheckVal data = .ok (some v)) :
    get_device_details_core data = .ok (Json.obj [("error", v)]) := by
  simp [get_device_details_core, h, ok_bind, pure_eq_ok]

theorem run_automation_task_core_error (data v : Json) (h : errorCheckVal data = .ok (some v)) :
    run_automation_task_core data = .ok (Json.obj [("error", v)]) := by
  simp [run_automation_task_core, h, ok_bind, pure_eq_ok]

/-- When the decoded object has an `"error"` entry, the shared check
yields it. -/
theorem errorCheckVal_some (kvs : List (String × Json)) (v : Json)
    (h : lookupField kvs "error" = some v) :
    errorCheckVal (Json.obj kvs) = .ok (some v) := by
  simp [errorCheckVal, Json.pyContains, Json.pyIndex, h, ok_bind, pure_eq_ok]

/-- C4: on an upstream HTTP 401, every one of the five tool operations
returns the dump of exactly the object
`{"error": "Authentication failed. Check your API token."}`, whatever the
response text, the invoked operation and its arguments were. -/
theorem C4_auth_failure (text : String) (site_id : Option String)
    (device_id₁ device_id₂ task_type : String) (params : Json) :
    get_sites (.httpError 401 text) =
      .ok (dumps (errObj "Authentication failed. Check your API token.")) ∧
    get_devices site_id (.httpError 401 text) =
      .ok (dumps (errObj "Authentication failed. Check your API token.")) ∧
    get_endpoints device_id₁ (.httpError 401 text) =
      .ok (dumps (errObj "Authentication failed. Check your API token.")) ∧
    get_device_details device_id₂ (.httpError 401 text) =
      .ok (dumps (errObj "Authentication failed. Check your API token.")) ∧
    run_automation_task task_type params (.httpError 401 text) =
      .ok (dumps (errObj "Authentication failed. Check your API token.")) :=
  ⟨rfl, rfl, rfl, rfl, rfl⟩

/-- C5: on an upstream HTTP 429 the forwarder sleeps exactly one second,
issues exactly one upstream request (no resubmission), and every tool
operation returns the rate-limit error message, never a success. -/
theorem C5_rate_limited (text : String) (site_id : Option String)
    (device_id₁ device_id₂ task_type : String) (params : Json) :
    (make_api_request (.httpError 429 text)).sleepSeconds = [1] ∧
    (make_api_request (.httpError 429 text)).attempts = 1 ∧
    get_sites (.httpError 429 text) =
      .ok (dumps (errObj "Rate limit exceeded. Please try again later.")) ∧
    get_devices site_id (.httpError 429 text) =
      .ok (dumps (errObj "Rate limit exceeded. Please try again later.")) ∧
    get_endpoints device_id₁ (.httpError 429 text) =
      .ok (dumps (errObj "Rate limit exceeded. Please try again later.")) ∧
    get_device_details device_id₂ (.httpError 429 text) =
      .ok (dumps (errObj "Rate limit exceeded. Please try again later.")) ∧
    run_automation_task task_type params (.httpError 429 text) =
      .ok (dumps (errObj "Rate limit exceeded. Please try again later.")) :=
  ⟨rfl, rfl, rfl, rfl, rfl, rfl, rfl⟩

/-- C3: when the upstream call succeeds and the response array is empty,
`get_sites`, `get_devices` and `get_endpoints` each return the dump of a
`{"message": "No <items> found..."}` object, not an empty array. -/
theorem C3_empty_response (kvs : List (String × Json))
    (herr : lookupField kvs "error" = none)
    (hresp : lookupField kvs "response" = some (Json.arr []))
    (site_id : Option String) (device_id : String) :
    get_sites (.success (Json.obj kvs)) =
      .ok (dumps (Json.obj [("message", Json.str "No sites found.")])) ∧
    get_devices site_id (.success (Json.obj kvs)) =
      .ok (dumps (Json.obj [("message", Json.str "No devices found.")])) ∧
    get_endpoints device_id (.success (Json.obj kvs)) =
      .ok (dumps (Json.obj [("message", Json.str "No endpoints found for this device.")])) := by
  have he := errorCheckVal_none kvs herr
  refine ⟨?_, ?_, ?_⟩ <;>
    simp [get_sites, get_devices, get_endpoints, make_api_request,
      get_sites_core, get_devices_core, get_endpoints_core, he, Json.pyGet, hresp,
      Json.pyIter, mapExcept, ok_bind, pure_eq_ok, map_ok, excMap_ok]

/-- Closed instance of C3 at the concrete body `{"response": []}`. -/
theorem C3_witness :
    lookupField [("response", Json.arr [])] "error" = none ∧
    lookupField [("response", Json.arr [])] "response" = some (Json.arr []) ∧
    get_sites (.success (Json.obj [("response", Json.arr [])])) =
      .ok (dumps (Json.obj [("message", Json.str "No sites found.")])) :=
  ⟨rfl, rfl, (C3_empty_response [("response", Json.arr [])] rfl rfl none "d").1⟩

/-- C2 fails as stated: on a successful (2xx) upstream response whose body
is the well-formed JSON `{"response": [{}]}`, `get_sites` evaluates
`site["id"]` on a record without that key and an uncaught `KeyError`
propagates out of the handler instead of a JSON string. -/
theorem C2_counterexample :
    get_sites (.success (Json.obj [("response", Json.arr [Json.obj []])])) =
      .error (.keyError "id") := rfl

/-- C2 amended: on every upstream outcome the forwarder classifies as an
error — any non-2xx HTTP status, a transport failure, or a body that could
not be decoded — every one of the five tool operations returns normally
with the dump of a JSON value; only a 2xx response whose decoded body has
an unexpected shape can raise. -/
theorem C2_failure_always_json (o : UpstreamOutcome) (h : outcomeIsFailure o = true)
    (site_id : Option String) (device_id₁ device_id₂ task_type : String) (params : Json) :
    (∃ j, get_sites o = .ok (dumps j)) ∧
    (∃ j, get_devices site_id o = .ok (dumps j)) ∧
    (∃ j, get_endpoints device_id₁ o = .ok (dumps j)) ∧
    (∃ j, get_device_details device_id₂ o = .ok (dumps j)) ∧
    (∃ j, run_automation_task task_type params o = .ok (dumps j)) := by
  obtain ⟨m, hm⟩ := make_api_request_failure o h
  have he := errorCheckVal_errObj m
  exact ⟨⟨Json.obj [("error", Json.str m)],
      by simp [get_sites, hm, get_sites_core_error _ _ he, excMap_ok]⟩,
    ⟨Json.obj [("error", Json.str m)],
      by simp [get_devices, hm, get_devices_core_error _ _ he, excMap_ok]⟩,
    ⟨Json.obj [("error", Json.str m)],
      by simp [get_endpoints, hm, get_endpoints_core_error _ _ he, excMap_ok]⟩,
    ⟨Json.obj [("error", Json.str m)],
      by simp [get_device_details, hm, get_device_details_core_error _ _ he, excMap_ok]⟩,
    ⟨Json.obj [("error", Json.str m)],
      by simp [run_automation_task, hm, run_automation_task_core_error _ _ he, excMap_ok]⟩⟩

/-- Closed instance of the amended C2 at a concrete HTTP 500. -/
theorem C2_witness :
    outcomeIsFailure (.httpError 500 "boom") = true ∧
    (∃ j, get_sites (.httpError 500 "boom") = .ok (dumps j)) :=
  ⟨rfl, (C2_failure_always_json (.httpError 500 "boom") rfl none "d" "d" "t" (Json.obj [])).1⟩

/-- C9: a 2xx upstream response whose decoded body carries a top-level
`"error"` entry is reported as a failure: every operation returns the dump
of exactly `{"error": v}` even though the HTTP request succeeded, and when
`v` is the auth-failure message the output is byte-identical to that of a
real upstream 401. -/
theorem C9_payload_error (kvs : List (String × Json)) (v : Json)
    (h : lookupField kvs "error" = some v)
    (site_id : Option String) (device_id₁ device_id₂ task_type : String) (params : Json)
    (text : String) :
    get_sites (.success (Json.obj kvs)) = .ok (dumps (Json.obj [("error", v)])) ∧
    get_devices site_id (.success (Json.obj kvs)) = .ok (dumps (Json.obj [("error", v)])) ∧
    get_endpoints device_id₁ (.success (Json.obj kvs)) = .ok (dumps (Json.obj [("error", v)])) ∧
    get_device_details device_id₂ (.success (Json.obj kvs)) = .ok (dumps (Json.obj [("error", v)])) ∧
    run_automation_task task_type params (.success (Json.obj kvs)) =
      .ok (dumps (Json.obj [("error", v)])) ∧
    (v = Json.str "Authentication failed. Check your API token." →
      get_sites (.success (Json.obj kvs)) = get_sites (.httpError 401 text)) := by
  have he := errorCheckVal_some kvs v h
  refine ⟨by simp [get_sites, make_api_request, get_sites_core_error _ _ he, excMap_ok],
    by simp [get_devices, make_api_request, get_devices_core_error _ _ he, excMap_ok],
    by simp [get_endpoints, make_api_request, get_endpoints_core_error _ _ he, excMap_ok],
    by simp [get_device_details, make_api_request, get_device_details_core_error _ _ he, excMap_ok],
    by simp [run_automation_task, make_api_request, run_automation_task_core_error _ _ he, excMap_ok],
    ?_⟩
  intro hv
  subst hv
  have h401 : get_sites (.httpError 401 text) =
      .ok (dumps (Json.obj [("error",
        Json.str "Authentication failed. Check your API token.")])) := rfl
  rw [h401]
  simp [get_sites, make_api_request, get_sites_core_error _ _ he, excMap_ok]

/-- Closed instance of C9 at the concrete body `{"error": "boom"}`. -/
theorem C9_witness :
    lookupField [("error", Json.str "boom")] "error" = some (Json.str "boom") ∧
    get_sites (.success (Json.obj [("error", Json.str "boom")])) =
      .ok (dumps (Json.obj [("error", Json.str "boom")])) :=
  ⟨rfl, (C9_payload_error [("error", Json.str "boom")] (Json.str "boom") rfl
    none "d" "d" "t" (Json.obj []) "").1⟩

/-- C10: on a successful upstream response whose record lacks `hostname`,
`family`, `softwareVersion`, `serialNumber` and `reachabilityStatus`,
`get_device_details` does not fail: the two required fields surface as the
string `"N/A"` and the three optional ones as `null`. -/
theorem C10_device_details_defaults (devKvs : List (String × Json))
    (h1 : lookupField devKvs "hostname" = none)
    (h2 : lookupField devKvs "family" = none)
    (h3 : lookupField devKvs "softwareVersion" = none)
    (h4 : lookupField devKvs "serialNumber" = none)
    (h5 : lookupField devKvs "reachabilityStatus" = none)
    (device_id : String) :
    get_device_details device_id (.success (Json.obj [("response", Json.obj devKvs)])) =
      .ok (dumps (Json.obj [("hostname", Json.str "N/A"), ("family", Json.str "N/A"),
        ("software_version", Json.null), ("serial_number", Json.null),
        ("status", Json.null)])) := by
  have he : errorCheckVal (Json.obj [("response", Json.obj devKvs)]) = .ok none :=
    errorCheckVal_none _ rfl
  simp [get_device_details, make_api_request, get_device_details_core, he,
    Json.pyGet, lookupField, h1, h2, h3, h4, h5, validateStr, validateOptStr,
    ok_bind, pure_eq_ok, excMap_ok]

/-- Closed instance of C10 at the concrete body `{"response": {}}`. -/
theorem C10_witness :
    lookupField ([] : List (String × Json)) "hostname" = none ∧
    get_device_details "dev-1" (.success (Json.obj [("response", Json.obj [])])) =
      .ok (dumps (Json.obj [("hostname", Json.str "N/A"), ("family", Json.str "N/A"),
        ("software_version", Json.null), ("serial_number", Json.null),
        ("status", Json.null)])) :=
  ⟨rfl, C10_device_details_defaults [] rfl rfl rfl rfl rfl "dev-1"⟩

/-- C1 fails as stated: `run_automation_task` on a successful upstream
response containing one well-formed TaskResult record dumps a single JSON
object `{"status": "success", "task_id": ..., "progress": ...}` — not a
JSON array of length 1, and with the wrapper fields rather than exactly
the TaskResult schema fields. -/
theorem C1_counterexample :
    run_automation_task_core
        (Json.obj [("taskId", Json.str "t1"), ("progress", Json.str "done")]) =
      .ok (Json.obj [("status", Json.str "success"), ("task_id", Json.str "t1"),
        ("progress", Json.str "done")]) ∧
    Json.isArr (Json.obj [("status", Json.str "success"), ("task_id", Json.str "t1"),
      ("progress", Json.str "done")]) = false ∧
    run_automation_task "provision_device" (Json.obj [])
        (.success (Json.obj [("taskId", Json.str "t1"), ("progress", Json.str "done")])) =
      .ok (dumps (Json.obj [("status", Json.str "success"), ("task_id", Json.str "t1"),
        ("progress", Json.str "done")])) :=
  ⟨rfl, rfl, rfl⟩

/-- C1 amended: for the three list operations `get_sites`, `get_devices`
and `get_endpoints`, a successful upstream response whose `"response"`
array holds N ≥ 1 well-formed records yields the dump of a JSON array of
length N whose every element carries exactly the fields declared by the
schema of that operation, unrecognized upstream fields dropped
(`get_device_details` and `run_automation_task` instead return single
JSON objects). -/
theorem C1_list_projection (kvs : List (String × Json)) (l : List Json)
    (herr : lookupField kvs "error" = none)
    (hresp : lookupField kvs "response" = some (Json.arr l))
    (hne : l ≠ [])
    (site_id : Option String) (device_id : String) :
    ((∀ r ∈ l, siteWF r = true) →
      get_sites (.success (Json.obj kvs)) = .ok (dumps (Json.arr (l.map siteProj))) ∧
      (l.map siteProj).length = l.length ∧
      ∀ e ∈ l.map siteProj, e.topKeys = ["id", "name", "description"]) ∧
    ((∀ r ∈ l, deviceWF r = true) →
      get_devices site_id (.success (Json.obj kvs)) =
        .ok (dumps (Json.arr (l.map deviceProj))) ∧
      (l.map deviceProj).length = l.length ∧
      ∀ e ∈ l.map deviceProj,
        e.topKeys = ["id", "hostname", "family", "role", "ip_address"]) ∧
    ((∀ r ∈ l, endpointWF r = true) →
      get_endpoints device_id (.success (Json.obj kvs)) =
        .ok (dumps (Json.arr (l.map endpointProj))) ∧
      (l.map endpointProj).length = l.length ∧
      ∀ e ∈ l.map endpointProj, e.topKeys = ["mac", "ip_address", "username"]) := by
  have he := errorCheckVal_none kvs herr
  obtain ⟨x, xs, rfl⟩ : ∃ x xs, l = x :: xs := by
    cases l with
    | nil => exact absurd rfl hne
    | cons a as => exact ⟨a, as, rfl⟩
  refine ⟨fun hwf => ?_, fun hwf => ?_, fun hwf => ?_⟩
  · have hmap := mapExcept_ok siteRecord siteProj (x :: xs)
      fun r hr => siteRecord_of_wf r (hwf r hr)
    refine ⟨?_, by simp, ?_⟩
    · simp [get_sites, make_api_request, get_sites_core, he, Json.pyGet, hresp,
        Json.pyIter, hmap, ok_bind, pure_eq_ok, excMap_ok]
    · intro e hee
      obtain ⟨r, _, rfl⟩ := List.mem_map.mp hee
      rfl
  · have hmap := mapExcept_ok deviceRecord deviceProj (x :: xs)
      fun r hr => deviceRecord_of_wf r (hwf r hr)
    refine ⟨?_, by simp, ?_⟩
    · simp [get_devices, make_api_request, get_devices_core, he, Json.pyGet, hresp,
        Json.pyIter, hmap, ok_bind, pure_eq_ok, excMap_ok]
    · intro e hee
      obtain ⟨r, _, rfl⟩ := List.mem_map.mp hee
      rfl
  · have hmap := mapExcept_ok endpointRecord endpointProj (x :: xs)
      fun r hr => endpointRecord_of_wf r (hwf r hr)
    refine ⟨?_, by simp, ?_⟩
    · simp [get_endpoints, make_api_request, get_endpoints_core, he, Json.pyGet, hresp,
        Json.pyIter, hmap, ok_bind, pure_eq_ok, excMap_ok]
    · intro e hee
      obtain ⟨r, _, rfl⟩ := List.mem_map.mp hee
      rfl

/-- Closed instance of the amended C1: one well-formed site record. -/
theorem C1_witness :
    lookupField [("response", Json.arr [Json.obj [("id", Json.str "s1"),
      ("name", Json.str "HQ"), ("location", Json.str "x")]])] "error" = none ∧
    (∀ r ∈ [Json.obj [("id", Json.str "s1"), ("name", Json.str "HQ"),
      ("location", Json.str "x")]], siteWF r = true) ∧
    get_sites (.success (Json.obj [("response", Json.arr [Json.obj [("id", Json.str "s1"),
        ("name", Json.str "HQ"), ("location", Json.str "x")]])])) =
      .ok (dumps (Json.arr ([Json.obj [("id", Json.str "s1"), ("name", Json.str "HQ"),
        ("location", Json.str "x")]].map siteProj))) :=
  ⟨rfl, by decide,
    ((C1_list_projection [("response", Json.arr [Json.obj [("id", Json.str "s1"),
        ("name", Json.str "HQ"), ("location", Json.str "x")]])]
      [Json.obj [("id", Json.str "s1"), ("name", Json.str "HQ"),
        ("location", Json.str "x")]]
      rfl rfl (by simp) none "d").1 (by decide)).1⟩

/-- C6: the projection from upstream JSON to output is a deterministic
function of the inputs and the upstream response — two invocations of any
read operation with identical inputs against an unchanged upstream give
byte-identical output strings. -/
theorem C6_deterministic (o o' : UpstreamOutcome) (ho : o = o')
    (s s' : Option String) (hs : s = s')
    (d₁ d₁' d₂ d₂' : String) (hd₁ : d₁ = d₁') (hd₂ : d₂ = d₂') :
    get_sites o = get_sites o' ∧
    get_devices s o = get_devices s' o' ∧
    get_endpoints d₁ o = get_endpoints d₁' o' ∧
    get_device_details d₂ o = get_device_details d₂' o' := by
  subst ho
  subst hs
  subst hd₁
  subst hd₂
  exact ⟨rfl, rfl, rfl, rfl⟩

/-- Closed instance of C6 at a concrete outcome and inputs. -/
theorem C6_witness :
    get_sites (.success (Json.obj [("response", Json.arr [])])) =
      get_sites (.success (Json.obj [("response", Json.arr [])])) ∧
    get_devices (some "s") (.success (Json.obj [("response", Json.arr [])])) =
      get_devices (some "s") (.success (Json.obj [("response", Json.arr [])])) :=
  ⟨(C6_deterministic _ _ rfl (some "s") _ rfl "a" _ "b" _ rfl rfl).1,
   (C6_deterministic (.success (Json.obj [("response", Json.arr [])])) _ rfl
      (some "s") _ rfl "a" _ "b" _ rfl rfl).2.1⟩

/-- C7: module import fails fast when `CATALYST_API_TOKEN` is unset or
empty — `startup` yields an error, so no operation is ever served and no
request issued; with a non-empty token it succeeds, the base URL
defaulting to the sandbox URL exactly when `CATALYST_API_BASE_URL` is
unset. -/
theorem C7_startup (env : String → Option String) :
    ((env "CATALYST_API_TOKEN" = none ∨ env "CATALYST_API_TOKEN" = some "") →
      startup env = .error "CATALYST_API_TOKEN environment variable is required") ∧
    (∀ t, env "CATALYST_API_TOKEN" = some t → t ≠ "" →
      startup env = .ok ⟨(env "CATALYST_API_BASE_URL").getD DEFAULT_BASE_URL, t⟩) := by
  constructor
  · rintro (h | h) <;> simp [startup, h]
  · intro t ht hne
    simp [startup, ht, hne]

/-- Closed instance of C7: an empty environment fails, a token-only
environment starts with the default base URL. -/
theorem C7_witness :
    startup (fun _ => none) =
      .error "CATALYST_API_TOKEN environment variable is required" ∧
    startup (fun k => if k = "CATALYST_API_TOKEN" then some "tok" else none) =
      .ok ⟨DEFAULT_BASE_URL, "tok"⟩ :=
  ⟨(C7_startup (fun _ => none)).1 (Or.inl rfl),
   (C7_startup (fun k => if k = "CATALYST_API_TOKEN" then some "tok" else none)).2
      "tok" rfl (by decide)⟩

/-- C8: `create_site` with `siteNameHierarchy="Global/Area1"` and the
default `siteType` produces the upstream POST body
`[{"siteNameHierarchy": "Global/Area1", "siteType": "FABRIC_SITE"}]`
(modelled from the spec; the route surface is not in this source tree). -/
theorem C8_create_site_body :
    create_site_request_body "Global/Area1" DEFAULT_SITE_TYPE =
      Json.arr [Json.obj [("siteNameHierarchy", Json.str "Global/Area1"),
        ("siteType", Json.str "FABRIC_SITE")]] := rfl
